import Mathlib

/-!
Shallow embedding of the RankVectors TypeScript SDK (`src/index.ts`).

The SDK is a thin HTTP client: a constructor validating the API key and
normalizing the base URL, one generic `request` helper that builds a
`fetch` call and turns the response into a parsed JSON value or a thrown
error, and a family of endpoint wrappers that assemble paths, query
strings and JSON bodies before delegating to `request`.

The embedding splits the effectful `request<T>` method at its single
`await fetch` point: `RankVectorsSDK.request` is the pure construction of
the outbound `HttpRequest` (url, method, headers, body), and
`RankVectorsSDK.handleResponse` is the pure function applied to the
`HttpResponse` the transport returns.  Each public method issues exactly
one request, so a method call is modelled as a request value plus a
response-postprocessing function.

JavaScript semantics that the source relies on are modelled explicitly:
truthiness tests (`if (!apiKey)`, `if (filters?.limit)`,
`errorData.error || fallback`, `result.usageHistory || []`), string
coercion performed by `new Error(value)`, object-spread merging of
headers (`{defaults, ...options.headers}`, later keys override),
`JSON.stringify` serialization, property access on parsed JSON (a
`TypeError` on `null`), and `URLSearchParams` form-urlencoded rendering.
-/

/-- JSON values, the domain of parsed request and response bodies.
Numbers are restricted to integers, which covers every number this SDK
ever serializes (counts, offsets, credit amounts). -/
inductive Json where
  | null : Json
  | bool (b : Bool) : Json
  | num (n : Int) : Json
  | str (s : String) : Json
  | arr (elems : List Json) : Json
  | obj (fields : List (String × Json)) : Json

/-- Errors a call can reject with: `thrown m` is `throw new Error(m)`,
`typeError p` is the TypeError raised by reading property `p` of `null`,
and `syntaxError` is the rejection of `response.json()` on a body that is
not valid JSON. -/
inductive JsError where
  | thrown (message : String) : JsError
  | typeError (targetProp : String) : JsError
  | syntaxError : JsError
deriving DecidableEq

/-- JavaScript truthiness of a JSON value: `null`, `false`, `0` and the
empty string are falsy, everything else (including `[]` and `\x7b\x7d`) is
truthy. -/
def Json.truthy : Json → Bool
  | .null => false
  | .bool b => b
  | .num n => n != 0
  | .str s => s != ""
  | .arr _ => true
  | .obj _ => true

/-- Last binding of key `k` in an association list; `JSON.parse` keeps the
last occurrence of a duplicated object key, and plain property access then
sees that value. -/
def lookupLast (fields : List (String × Json)) (k : String) : Option Json :=
  fields.foldl (fun acc p => if p.1 = k then some p.2 else acc) none

/-- Property access `j[k]` on a parsed JSON value: reading a property of
`null` throws a TypeError; objects yield the field when present; every
other value (strings, numbers, booleans, arrays) has no such own property,
so the access yields `undefined`, modelled as `none`. -/
def Json.jsProp : Json → String → Except JsError (Option Json)
  | .null, k => .error (JsError.typeError k)
  | .obj fields, k => .ok (lookupLast fields k)
  | _, _ => .ok none

mutual
/-- String coercion `String(v)` as performed by `new Error(v)` on a parsed
JSON value: identity on strings, decimal for numbers, `Array.prototype.join`
with comma for arrays (where a `null` element renders empty), and the
generic object tag for objects. -/
def Json.jsToString : Json → String
  | .null => "null"
  | .bool b => if b then "true" else "false"
  | .num n => toString n
  | .str s => s
  | .arr elems => Json.jsJoinList elems
  | .obj _ => "[object Object]"

/-- Comma join of array elements under `String(...)`; `null` elements
render as the empty string per `Array.prototype.join`. -/
def Json.jsJoinList : List Json → String
  | [] => ""
  | [.null] => ""
  | [j] => Json.jsToString j
  | .null :: rest => "," ++ Json.jsJoinList rest
  | j :: rest => Json.jsToString j ++ "," ++ Json.jsJoinList rest
end

/-- Lowercase hexadecimal digit, used by the `\u00XX` escapes of
`JSON.stringify`. -/
def hexDigitLower (n : Nat) : Char :=
  if n < 10 then Char.ofNat (48 + n) else Char.ofNat (87 + n % 16)

/-- Uppercase hexadecimal digit, used by percent-encoding in
`URLSearchParams`. -/
def hexDigitUpper (n : Nat) : Char :=
  if n < 10 then Char.ofNat (48 + n) else Char.ofNat (55 + n % 16)

/-- Escape of one character inside a `JSON.stringify` string literal. -/
def jsonEscapeChar (c : Char) : String :=
  if c = Char.ofNat 34 then "\\\""
  else if c = Char.ofNat 92 then "\\\\"
  else if c = Char.ofNat 10 then "\\n"
  else if c = Char.ofNat 13 then "\\r"
  else if c = Char.ofNat 9 then "\\t"
  else if c = Char.ofNat 8 then "\\b"
  else if c = Char.ofNat 12 then "\\f"
  else if c.toNat < 32 then
    "\\u00" ++ String.singleton (hexDigitLower (c.toNat / 16))
      ++ String.singleton (hexDigitLower (c.toNat % 16))
  else String.singleton c

/-- Escape of a whole string for `JSON.stringify`. -/
def jsonEscape (s : String) : String :=
  String.join (s.data.map jsonEscapeChar)

mutual
/-- Serialization `JSON.stringify(v)` of a JSON value. -/
def Json.stringify : Json → String
  | .null => "null"
  | .bool b => if b then "true" else "false"
  | .num n => toString n
  | .str s => "\"" ++ jsonEscape s ++ "\""
  | .arr elems => "[" ++ Json.stringifyList elems ++ "]"
  | .obj fields => "\x7b" ++ Json.stringifyFields fields ++ "\x7d"

/-- Comma-separated serialization of array elements. -/
def Json.stringifyList : List Json → String
  | [] => ""
  | [j] => Json.stringify j
  | j :: rest => Json.stringify j ++ "," ++ Json.stringifyList rest

/-- Comma-separated serialization of object fields. -/
def Json.stringifyFields : List (String × Json) → String
  | [] => ""
  | [(k, v)] => "\"" ++ jsonEscape k ++ "\":" ++ Json.stringify v
  | (k, v) :: rest =>
      "\"" ++ jsonEscape k ++ "\":" ++ Json.stringify v ++ "," ++ Json.stringifyFields rest
end

/-- Form-urlencoded serialization of one byte, as in the `URLSearchParams`
serializer: alphanumerics and `*`, `-`, `.`, `_` pass through, a space
becomes `+`, every other byte is percent-encoded with uppercase hex. -/
def formEncodeByte (b : UInt8) : String :=
  let n := b.toNat
  if n = 32 then "+"
  else if n = 42 || n = 45 || n = 46 || n = 95
      || (48 ≤ n && n ≤ 57) || (65 ≤ n && n ≤ 90) || (97 ≤ n && n ≤ 122) then
    String.singleton (Char.ofNat n)
  else
    "%" ++ String.singleton (hexDigitUpper (n / 16)) ++ String.singleton (hexDigitUpper (n % 16))

/-- Form-urlencoded serialization of a string (UTF-8 bytes, then
byte-wise encoding), as `URLSearchParams.toString` applies to each key and
value. -/
def formEncode (s : String) : String :=
  String.join (s.toUTF8.toList.map formEncodeByte)

/-- Rendering `URLSearchParams.toString()`: the appended pairs in
insertion order, each as `key=value` with both sides form-encoded, joined
by `&`; an empty parameter list renders as the empty string. -/
def renderQuery (params : List (String × String)) : String :=
  String.intercalate "&" (params.map fun p => formEncode p.1 ++ "=" ++ formEncode p.2)

/-- Sets key `k` to value `v` in an association list the way a JavaScript
object-spread assignment does: an existing key keeps its position and gets
the new value, a new key is appended. -/
def assocSet {α : Type} (m : List (String × α)) (k : String) (v : α) : List (String × α) :=
  if m.any (fun p => p.1 = k) then m.map (fun p => if p.1 = k then (k, v) else p)
  else m ++ [(k, v)]

/-- Object spread `\x7b...base, ...extra\x7d`: entries of `extra` are laid
over `base` left to right, later keys overriding earlier values. -/
def spreadAssoc {α : Type} (base extra : List (String × α)) : List (String × α) :=
  extra.foldl (fun m p => assocSet m p.1 p.2) base

/-- First binding of a header key in the resolved header list. -/
def headerLookup (headers : List (String × String)) (k : String) : Option String :=
  headers.lookup k

/-- The client: an API key and a normalized base URL, the two private
fields of class `RankVectorsSDK`. -/
structure RankVectorsSDK where
  apiKey : String
  baseUrl : String
deriving DecidableEq

/-- Removal of exactly one trailing slash, the constructor line
`baseUrl.replace(/\/$/, '')`: when the last character is a slash it is
dropped, otherwise the string is unchanged. -/
def stripTrailingSlash (s : String) : String :=
  if s.data.getLast? = some (Char.ofNat 47) then String.mk s.data.dropLast else s

/-- The constructor of `RankVectorsSDK`.  It is a pure function from the
arguments to either the thrown error or the configured instance: no
`HttpRequest` value exists on this path, so no network call is modelled or
possible at construction.  `if (!apiKey) throw new Error(...)` rejects the
empty key (the only falsy value of the declared string type); otherwise
both fields are stored, with the base URL normalized.  `baseUrl` defaults
to the production host. -/
def RankVectorsSDK.create (apiKey : String)
    (baseUrl : String := "https://rankvectors.com") : Except JsError RankVectorsSDK :=
  if apiKey = "" then .error (JsError.thrown "API key is required")
  else .ok { apiKey := apiKey, baseUrl := stripTrailingSlash baseUrl }

/-- The `options` argument of `request` (`RequestInit`): `fetch` defaults
the method to GET when none is given, the body is the already serialized
string or absent, and `headers` are the caller-supplied entries. -/
structure RequestInit where
  method : String := "GET"
  headers : List (String × String) := []
  body : Option String := none

/-- An outbound HTTP request exactly as handed to `fetch`: full URL,
method, resolved headers and optional body. -/
structure HttpRequest where
  url : String
  method : String
  headers : List (String × String)
  body : Option String

/-- An HTTP response as observed through `fetch`: status code, status
text, and the body as JSON when it parses (`none` when `JSON.parse` would
fail). -/
structure HttpResponse where
  status : Nat
  statusText : String
  jsonBody : Option Json

/-- The `response.ok` accessor: status in the 200 to 299 range. -/
def HttpResponse.ok (r : HttpResponse) : Bool :=
  decide (200 ≤ r.status) && decide (r.status ≤ 299)

/-- The two headers `request` always supplies before spreading the
caller's headers over them. -/
def RankVectorsSDK.defaultHeaders (sdk : RankVectorsSDK) : List (String × String) :=
  [("Authorization", "Bearer " ++ sdk.apiKey), ("Content-Type", "application/json")]

/-- The outbound half of `request<T>`: the URL is the base URL with the
endpoint appended unchanged, and the headers object is
`\x7b Authorization, Content-Type, ...options.headers \x7d`, so
caller-supplied entries are spread over the two defaults. -/
def RankVectorsSDK.request (sdk : RankVectorsSDK) (endpoint : String)
    (options : RequestInit) : HttpRequest :=
  { url := sdk.baseUrl ++ endpoint
    method := options.method
    headers := spreadAssoc (sdk.defaultHeaders) options.headers
    body := options.body }

/-- The inbound half of `request<T>`, everything after `await fetch`:
on a non-ok status, `await response.json().catch(() => (\x7b\x7d))` gives
the parsed body or an empty object, and
`throw new Error(errorData.error || fallback)` throws the string-coerced
`error` property when it is truthy and otherwise the synthesized
`API request failed: status statusText` message (reading the property of a
body that parsed to `null` throws a TypeError instead); on an ok status,
`return response.json()` yields the parsed body unchanged, or rejects with
a SyntaxError when the body is not JSON. -/
def RankVectorsSDK.handleResponse (resp : HttpResponse) : Except JsError Json :=
  if resp.ok then
    match resp.jsonBody with
    | some j => .ok j
    | none => .error JsError.syntaxError
  else
    let errorData := resp.jsonBody.getD (Json.obj [])
    match errorData.jsProp "error" with
    | .error e => .error e
    | .ok fieldVal =>
      let fallback := "API request failed: " ++ toString resp.status ++ " " ++ resp.statusText
      match fieldVal with
      | some v => if v.truthy then .error (JsError.thrown v.jsToString)
                  else .error (JsError.thrown fallback)
      | none => .error (JsError.thrown fallback)

/-- Truthiness of an optional string argument, as tested by
`if (filters?.field)`: present and non-empty. -/
def strTruthy : Option String → Bool
  | some s => s != ""
  | none => false

/-- Truthiness of an optional number argument, as tested by
`if (filters?.field)`: present and non-zero. -/
def intTruthy : Option Int → Bool
  | some n => n != 0
  | none => false

/-- The pairs appended by one line
`if (filters?.k) params.append('k', filters.k)` for a string-valued
filter field. -/
def appendIfStr (k : String) (v : Option String) : List (String × String) :=
  match v with
  | some s => if s != "" then [(k, s)] else []
  | none => []

/-- The pairs appended by one line
`if (filters?.k) params.append('k', filters.k.toString())` for a
number-valued filter field. -/
def appendIfNum (k : String) (v : Option Int) : List (String × String) :=
  match v with
  | some n => if n != 0 then [(k, toString n)] else []
  | none => []

/-- The optional filter argument of `getSuggestions`. -/
structure SuggestionFilters where
  status : Option String := none
  limit : Option Int := none
  offset : Option Int := none

/-- The `URLSearchParams` contents `getSuggestions` builds: its three
conditional `append` statements in program order. -/
def suggestionParams (filters : Option SuggestionFilters) : List (String × String) :=
  appendIfStr "status" (filters.bind SuggestionFilters.status)
    ++ appendIfNum "limit" (filters.bind SuggestionFilters.limit)
    ++ appendIfNum "offset" (filters.bind SuggestionFilters.offset)

/-- The endpoint string `getSuggestions` passes to `request`:
`query ? '?' + query : ''` appends the rendered query only when it is a
truthy (non-empty) string. -/
def getSuggestionsEndpoint (projectId : String) (filters : Option SuggestionFilters) : String :=
  let query := renderQuery (suggestionParams filters)
  "/api/projects/" ++ projectId ++ "/suggestions" ++ (if query != "" then "?" ++ query else "")

/-- The optional filter argument of `getImplementations`. -/
structure ImplementationFilters where
  status : Option String := none
  platform : Option String := none
  limit : Option Int := none
  offset : Option Int := none

/-- The `URLSearchParams` contents `getImplementations` builds: its four
conditional `append` statements in program order. -/
def implementationParams (filters : Option ImplementationFilters) : List (String × String) :=
  appendIfStr "status" (filters.bind ImplementationFilters.status)
    ++ appendIfStr "platform" (filters.bind ImplementationFilters.platform)
    ++ appendIfNum "limit" (filters.bind ImplementationFilters.limit)
    ++ appendIfNum "offset" (filters.bind ImplementationFilters.offset)

/-- The endpoint string `getImplementations` passes to `request`. -/
def getImplementationsEndpoint (projectId : String)
    (filters : Option ImplementationFilters) : String :=
  let query := renderQuery (implementationParams filters)
  "/api/projects/" ++ projectId ++ "/implementations" ++ (if query != "" then "?" ++ query else "")

/-- A JavaScript `Date`, observed only through `toISOString()`; a `Date`
object is always truthy. -/
structure JsDate where
  iso : String

/-- The optional date-range argument of the credits operations. -/
structure DateRange where
  startDate : Option JsDate := none
  endDate : Option JsDate := none

/-- The `URLSearchParams` contents `getCredits` builds: `includeHistory`
when the boolean is true, then the ISO-serialized bounds of the date range
when present (a `Date` object is truthy, so presence is the only test). -/
def creditsParams (includeHistory : Bool) (dateRange : Option DateRange) : List (String × String) :=
  (if includeHistory then [("includeHistory", "true")] else [])
    ++ (match dateRange.bind DateRange.startDate with
        | some d => [("startDate", d.iso)]
        | none => [])
    ++ (match dateRange.bind DateRange.endDate with
        | some d => [("endDate", d.iso)]
        | none => [])

/-- The endpoint string `getCredits` passes to `request`. -/
def getCreditsEndpoint (projectId : String) (includeHistory : Bool)
    (dateRange : Option DateRange) : String :=
  let query := renderQuery (creditsParams includeHistory dateRange)
  "/api/projects/" ++ projectId ++ "/credits" ++ (if query != "" then "?" ++ query else "")

/-- Fields of an object literal whose values may be `undefined`
(`none`): `JSON.stringify` omits properties whose value is `undefined`,
so absent options contribute no field. -/
def optField (k : String) (v : Option Json) : List (String × Json) :=
  match v with
  | some j => [(k, j)]
  | none => []

/-- One call to a public method of the SDK, with its arguments.
`implementLinks` carries the enumerable fields of its `options` object
(the body spreads them), and `rollbackImplementation` carries the opaque
`credentials` payload as JSON. -/
inductive Op where
  | getSuggestions (projectId : String) (filters : Option SuggestionFilters) : Op
  | approveSuggestion (suggestionId : String) : Op
  | rejectSuggestion (suggestionId : String) : Op
  | implementLinks (projectId : String) (suggestionIds : List String)
      (options : List (String × Json)) : Op
  | getImplementation (projectId : String) (implementationId : String) : Op
  | getImplementations (projectId : String) (filters : Option ImplementationFilters) : Op
  | rollbackImplementation (projectId : String) (implementationId : String)
      (reason : Option String) (credentials : Option Json) : Op
  | getCredits (projectId : String) (includeHistory : Bool) (dateRange : Option DateRange) : Op
  | getCreditUsage (projectId : String) (dateRange : Option DateRange) : Op
  | addCredits (projectId : String) (amount : Int) (source : Option String) : Op
  | verifyContent (projectId : String) (pageUrl : String) (suggestionId : Option String) : Op

/-- Execution of one public method call down to its single `request`
invocation.  The returned state is the client after the call: no method
body assigns to `this.apiKey` or `this.baseUrl`, so each branch returns
`sdk` itself alongside the request it issues.  Bodies are the
`JSON.stringify` of the object literals in the source;
`getCreditUsage` delegates to `getCredits` with `includeHistory` set to
`true`. -/
def RankVectorsSDK.applyOp (sdk : RankVectorsSDK) (op : Op) : RankVectorsSDK × HttpRequest :=
  match op with
  | .getSuggestions pid filters =>
      (sdk, sdk.request (getSuggestionsEndpoint pid filters) {})
  | .approveSuggestion suggestionId =>
      (sdk, sdk.request ("/api/projects/suggestions/" ++ suggestionId)
        { method := "PATCH"
          body := some (Json.obj [("status", Json.str "approved")]).stringify })
  | .rejectSuggestion suggestionId =>
      (sdk, sdk.request ("/api/projects/suggestions/" ++ suggestionId)
        { method := "PATCH"
          body := some (Json.obj [("status", Json.str "rejected")]).stringify })
  | .implementLinks pid suggestionIds options =>
      (sdk, sdk.request ("/api/projects/" ++ pid ++ "/implementations")
        { method := "POST"
          body := some (Json.obj (spreadAssoc
            [("suggestionIds", Json.arr (suggestionIds.map Json.str))] options)).stringify })
  | .getImplementation pid implementationId =>
      (sdk, sdk.request ("/api/projects/" ++ pid ++ "/implementations/" ++ implementationId) {})
  | .getImplementations pid filters =>
      (sdk, sdk.request (getImplementationsEndpoint pid filters) {})
  | .rollbackImplementation pid implementationId reason credentials =>
      (sdk, sdk.request
        ("/api/projects/" ++ pid ++ "/implementations/" ++ implementationId ++ "/rollback")
        { method := "POST"
          body := some (Json.obj
            (optField "reason" ((reason.map Json.str))
              ++ optField "credentials" credentials)).stringify })
  | .getCredits pid includeHistory dateRange =>
      (sdk, sdk.request (getCreditsEndpoint pid includeHistory dateRange) {})
  | .getCreditUsage pid dateRange =>
      (sdk, sdk.request (getCreditsEndpoint pid true dateRange) {})
  | .addCredits pid amount source =>
      (sdk, sdk.request ("/api/projects/" ++ pid ++ "/credits")
        { method := "POST"
          body := some (Json.obj
            ([("amount", Json.num amount)] ++ optField "source" (source.map Json.str))).stringify })
  | .verifyContent pid pageUrl suggestionId =>
      (sdk, sdk.request ("/api/projects/" ++ pid ++ "/verify-content")
        { method := "POST"
          body := some (Json.obj
            ([("pageUrl", Json.str pageUrl)]
              ++ optField "suggestionId" (suggestionId.map Json.str))).stringify })

/-- The response side of `getSuggestions`: the parsed envelope is read at
`response.suggestions`, whose value (possibly `undefined`, modelled as
`none`) is returned unchanged. -/
def runGetSuggestions (resp : HttpResponse) : Except JsError (Option Json) :=
  match RankVectorsSDK.handleResponse resp with
  | .error e => .error e
  | .ok j => j.jsProp "suggestions"

/-- The response side of `getCreditUsage`: `result.usageHistory || []`
returns the `usageHistory` property when it is truthy and the empty array
otherwise (absent, `null`, or any other falsy value). -/
def runGetCreditUsage (resp : HttpResponse) : Except JsError Json :=
  match RankVectorsSDK.handleResponse resp with
  | .error e => .error e
  | .ok j =>
    match j.jsProp "usageHistory" with
    | .error e => .error e
    | .ok (some v) => .ok (if v.truthy then v else Json.arr [])
    | .ok none => .ok (Json.arr [])

/-- Whether a field of the `getSuggestions` filter set is present and
truthy, keyed by its query-parameter name. -/
def sugFieldTruthy (filters : Option SuggestionFilters) : String → Bool
  | "status" => strTruthy (filters.bind SuggestionFilters.status)
  | "limit" => intTruthy (filters.bind SuggestionFilters.limit)
  | "offset" => intTruthy (filters.bind SuggestionFilters.offset)
  | _ => false

/-- Whether a field of the `getImplementations` filter set is present and
truthy, keyed by its query-parameter name. -/
def implFieldTruthy (filters : Option ImplementationFilters) : String → Bool
  | "status" => strTruthy (filters.bind ImplementationFilters.status)
  | "platform" => strTruthy (filters.bind ImplementationFilters.platform)
  | "limit" => intTruthy (filters.bind ImplementationFilters.limit)
  | "offset" => intTruthy (filters.bind ImplementationFilters.offset)
  | _ => false

/-- Helper: the keys contributed by a string-valued filter line. -/
theorem map_fst_appendIfStr (k : String) (v : Option String) :
    (appendIfStr k v).map Prod.fst = if strTruthy v then [k] else [] := by
  cases v with
  | none => rfl
  | some s => by_cases h : s = "" <;> simp [appendIfStr, strTruthy, h]

/-- Helper: the keys contributed by a number-valued filter line. -/
theorem map_fst_appendIfNum (k : String) (v : Option Int) :
    (appendIfNum k v).map Prod.fst = if intTruthy v then [k] else [] := by
  cases v with
  | none => rfl
  | some n => by_cases h : n = 0 <;> simp [appendIfNum, intTruthy, h]

/-- Helper: on a non-2xx status, `handleResponse` always rejects; no
parsed value is ever returned. -/
theorem handleResponse_notOk_isError (r : HttpResponse) (h : r.ok = false) :
    ∀ j, RankVectorsSDK.handleResponse r ≠ .ok j := by
  intro j
  unfold RankVectorsSDK.handleResponse
  rw [h]
  cases hb : r.jsonBody with
  | none => simp [Json.jsProp, lookupLast]
  | some jb =>
      cases jb
      case null => simp [Json.jsProp]
      case bool => simp [Json.jsProp]
      case num => simp [Json.jsProp]
      case str => simp [Json.jsProp]
      case arr => simp [Json.jsProp]
      case obj fs =>
        simp only [Bool.false_eq_true, if_false, Option.getD_some, Json.jsProp]
        cases lookupLast fs "error" with
        | none => simp
        | some v => cases hv : v.truthy <;> simp [hv]

/-- Helper: no public method mutates the client: each call returns the
instance it was invoked on. -/
theorem applyOp_fst (sdk : RankVectorsSDK) (op : Op) :
    (sdk.applyOp op).1 = sdk := by
  cases op <;> rfl

/-- Helper: every request issued through a public method resolves its
headers to exactly the two defaults, because no call site passes
`options.headers`. -/
theorem applyOp_headers (sdk : RankVectorsSDK) (op : Op) :
    (sdk.applyOp op).2.headers = sdk.defaultHeaders := by
  cases op <;> rfl

/-- C2: constructing the client with an empty API key fails synchronously
with the `InvalidConfiguration` error (`new Error('API key is required')`),
and with every non-empty API key it succeeds, storing the key and the
normalized base URL.  The constructor is a pure function into
`Except JsError RankVectorsSDK`: no `HttpRequest` is produced on either
path, so no network call is attempted at construction. -/
theorem c2_constructor_validates_api_key (apiKey baseUrl : String) :
    (apiKey = "" →
      RankVectorsSDK.create apiKey baseUrl = .error (JsError.thrown "API key is required"))
    ∧ (apiKey ≠ "" →
      RankVectorsSDK.create apiKey baseUrl
        = .ok { apiKey := apiKey, baseUrl := stripTrailingSlash baseUrl }) := by
  constructor
  · intro h; simp [RankVectorsSDK.create, h]
  · intro h; simp [RankVectorsSDK.create, h]

/-- Witness for C2 at concrete inputs: the empty key is rejected and a
non-empty key is accepted. -/
theorem c2_constructor_validates_api_key_witness :
    RankVectorsSDK.create "" "https://rankvectors.com"
      = .error (JsError.thrown "API key is required")
    ∧ RankVectorsSDK.create "sk-123" "https://host"
      = .ok { apiKey := "sk-123", baseUrl := "https://host" } := by
  exact ⟨(c2_constructor_validates_api_key "" "https://rankvectors.com").1 rfl,
    (c2_constructor_validates_api_key "sk-123" "https://host").2 (by decide)⟩

/-- C6: a client constructed with base URL `https://host/` builds the same
full request URL as one constructed with `https://host`, for every
endpoint and options, and a base URL ending in two slashes keeps exactly
one after normalization. -/
theorem c6_base_url_normalization (sdk1 sdk2 : RankVectorsSDK)
    (h1 : RankVectorsSDK.create "k" "https://host/" = .ok sdk1)
    (h2 : RankVectorsSDK.create "k" "https://host" = .ok sdk2) :
    (∀ endpoint options,
      (sdk1.request endpoint options).url = (sdk2.request endpoint options).url)
    ∧ stripTrailingSlash "https://host//" = "https://host/" := by
  have hc1 : RankVectorsSDK.create "k" "https://host/"
      = .ok { apiKey := "k", baseUrl := "https://host" } := rfl
  have hc2 : RankVectorsSDK.create "k" "https://host"
      = .ok { apiKey := "k", baseUrl := "https://host" } := rfl
  rw [hc1] at h1
  rw [hc2] at h2
  injection h1 with h1
  injection h2 with h2
  subst h1
  subst h2
  exact ⟨fun _ _ => rfl, rfl⟩

/-- Witness for C6: both constructions succeed and the URLs of a concrete
request agree. -/
theorem c6_base_url_normalization_witness :
    ((RankVectorsSDK.request { apiKey := "k", baseUrl := "https://host" } "/api/x" {}).url
      = (RankVectorsSDK.request { apiKey := "k", baseUrl := "https://host" } "/api/x" {}).url)
    ∧ stripTrailingSlash "https://host//" = "https://host/" := by
  have h := c6_base_url_normalization
    { apiKey := "k", baseUrl := "https://host" } { apiKey := "k", baseUrl := "https://host" }
    rfl rfl
  exact ⟨h.1 "/api/x" {}, h.2⟩

/-- C8 (confirmed): `approveSuggestion` issues a PATCH to
`/api/projects/suggestions/{id}` with body `\x7b"status":"approved"\x7d`,
and `rejectSuggestion` a PATCH to the same path with body
`\x7b"status":"rejected"\x7d`, each with the default headers. -/
theorem c8_approve_reject_requests (sdk : RankVectorsSDK) (suggestionId : String) :
    sdk.applyOp (Op.approveSuggestion suggestionId)
      = (sdk, { url := sdk.baseUrl ++ ("/api/projects/suggestions/" ++ suggestionId)
                method := "PATCH"
                headers := sdk.defaultHeaders
                body := some "\x7b\"status\":\"approved\"\x7d" })
    ∧ sdk.applyOp (Op.rejectSuggestion suggestionId)
      = (sdk, { url := sdk.baseUrl ++ ("/api/projects/suggestions/" ++ suggestionId)
                method := "PATCH"
                headers := sdk.defaultHeaders
                body := some "\x7b\"status\":\"rejected\"\x7d" }) := by
  exact ⟨rfl, rfl⟩

/-- C9 (confirmed): the configuration is fixed at construction: after any
sequence of public operations, the client value, hence its `apiKey` and
`baseUrl` fields, equals what the constructor produced.  Each method body
contains no assignment to either field, which `applyOp` reflects by
returning the receiver unchanged. -/
theorem c9_config_immutable (sdk : RankVectorsSDK) (ops : List Op) :
    (ops.foldl (fun s op => (RankVectorsSDK.applyOp s op).1) sdk).apiKey = sdk.apiKey
    ∧ (ops.foldl (fun s op => (RankVectorsSDK.applyOp s op).1) sdk).baseUrl = sdk.baseUrl := by
  have h : ops.foldl (fun s op => (RankVectorsSDK.applyOp s op).1) sdk = sdk := by
    induction ops generalizing sdk with
    | nil => rfl
    | cons op rest ih => rw [List.foldl_cons, applyOp_fst]; exact ih sdk
  rw [h]
  exact ⟨rfl, rfl⟩

/-- C7 (amended): every call through `request` issues exactly one HTTP
request (each `applyOp` branch yields a single `HttpRequest`), carrying
`Authorization: Bearer <apiKey>` and `Content-Type: application/json`
merged with caller-supplied headers.  Because the caller headers are
spread after the defaults, a caller-supplied header with the same key
would override these two; no method of this SDK supplies any headers, so
every issued request resolves to exactly the two defaults. -/
theorem c7_headers_on_every_request (sdk : RankVectorsSDK) (op : Op) :
    (sdk.applyOp op).2.headers = sdk.defaultHeaders
    ∧ headerLookup (sdk.applyOp op).2.headers "Authorization"
        = some ("Bearer " ++ sdk.apiKey)
    ∧ headerLookup (sdk.applyOp op).2.headers "Content-Type"
        = some "application/json" := by
  have h := applyOp_headers sdk op
  refine ⟨h, ?_, ?_⟩ <;> rw [h] <;> rfl

/-- Counterexample for C7 as stated: a caller-supplied `Authorization`
header does override the default, because `...options.headers` is spread
after the two defaults. -/
theorem c7_counterexample :
    headerLookup ((RankVectorsSDK.request { apiKey := "k", baseUrl := "https://host" } "/x"
        { headers := [("Authorization", "Basic abc")] }).headers) "Authorization"
      = some "Basic abc"
    ∧ some "Basic abc" ≠ some ("Bearer " ++ "k") := by
  exact ⟨rfl, by decide⟩

/-- C1 (amended): on a status outside 200 to 299, when the JSON-parsed
body carries a truthy `error` field — in particular any non-empty string —
the call fails with exactly that string as message, and no non-2xx
response ever yields a success value (no partial result). -/
theorem c1_error_field_message (resp : HttpResponse) (fields : List (String × Json)) (s : String)
    (hok : resp.ok = false)
    (hbody : resp.jsonBody = some (Json.obj fields))
    (herr : lookupLast fields "error" = some (Json.str s))
    (hne : s ≠ "") :
    RankVectorsSDK.handleResponse resp = .error (JsError.thrown s)
    ∧ ∀ r : HttpResponse, r.ok = false →
        ∀ j, RankVectorsSDK.handleResponse r ≠ .ok j := by
  refine ⟨?_, handleResponse_notOk_isError⟩
  unfold RankVectorsSDK.handleResponse
  rw [hok]
  simp [hbody, Json.jsProp, herr, Json.truthy, Json.jsToString, hne]

/-- Witness for C1: a 404 with body `\x7b"error":"not found"\x7d` fails
with message exactly `not found`. -/
theorem c1_error_field_message_witness :
    RankVectorsSDK.handleResponse
      { status := 404, statusText := "Not Found",
        jsonBody := some (Json.obj [("error", Json.str "not found")]) }
      = .error (JsError.thrown "not found") :=
  (c1_error_field_message
    { status := 404, statusText := "Not Found",
      jsonBody := some (Json.obj [("error", Json.str "not found")]) }
    [("error", Json.str "not found")] "not found" rfl rfl rfl (by decide)).1

/-- Counterexample for C1 as stated: the `error` field is present but is
the empty string, a falsy value, so `errorData.error || fallback` selects
the synthesized message instead of the field. -/
theorem c1_counterexample :
    RankVectorsSDK.handleResponse
      { status := 404, statusText := "Not Found",
        jsonBody := some (Json.obj [("error", Json.str "")]) }
      = .error (JsError.thrown "API request failed: 404 Not Found")
    ∧ "API request failed: 404 Not Found" ≠ "" := by
  exact ⟨rfl, by decide⟩

/-- C4 (amended): on a status outside 200 to 299, when the body is not
valid JSON, or parses to a value on which the `error` property reads as
`undefined` (absent field, or a non-object such as a string or array),
the failure message is composed of the numeric status code and the status
text.  A body parsing to JSON `null` is the one exception: reading
`errorData.error` on `null` raises a TypeError instead. -/
theorem c4_fallback_status_message (resp : HttpResponse)
    (hok : resp.ok = false)
    (hbody : resp.jsonBody = none
      ∨ ∃ j, resp.jsonBody = some j ∧ j.jsProp "error" = .ok none) :
    RankVectorsSDK.handleResponse resp
      = .error (JsError.thrown
          ("API request failed: " ++ toString resp.status ++ " " ++ resp.statusText)) := by
  unfold RankVectorsSDK.handleResponse
  rw [hok]
  rcases hbody with h | ⟨j, hj, hprop⟩
  · simp [h, Json.jsProp, lookupLast]
  · simp [hj, hprop]

/-- Witness for C4: a 500 with a non-JSON body fails with the message
`API request failed: 500 Internal Server Error`, which carries the
numeric code 500 and the status text. -/
theorem c4_fallback_status_message_witness :
    RankVectorsSDK.handleResponse
      { status := 500, statusText := "Internal Server Error", jsonBody := none }
      = .error (JsError.thrown "API request failed: 500 Internal Server Error") :=
  c4_fallback_status_message
    { status := 500, statusText := "Internal Server Error", jsonBody := none }
    rfl (Or.inl rfl)

/-- Counterexample for C4 as stated: a 500 whose body parses to JSON
`null` has no `error` field, yet the call fails with a TypeError from
`errorData.error`, not with the synthesized status message. -/
theorem c4_counterexample :
    RankVectorsSDK.handleResponse
      { status := 500, statusText := "Internal Server Error", jsonBody := some Json.null }
      = .error (JsError.typeError "error")
    ∧ JsError.typeError "error"
        ≠ JsError.thrown "API request failed: 500 Internal Server Error" := by
  exact ⟨rfl, by decide⟩

/-- C5 (confirmed): on a 2xx status the parsed JSON body is returned
as-is, with no validation or transformation, and `getSuggestions` in
particular returns exactly the `suggestions` list of the envelope. -/
theorem c5_ok_returns_parsed_body (resp : HttpResponse) (j : Json)
    (hok : resp.ok = true) (hbody : resp.jsonBody = some j) :
    RankVectorsSDK.handleResponse resp = .ok j
    ∧ ∀ xs, resp.jsonBody = some (Json.obj [("suggestions", Json.arr xs)]) →
        runGetSuggestions resp = .ok (some (Json.arr xs)) := by
  have hmain : RankVectorsSDK.handleResponse resp = .ok j := by
    unfold RankVectorsSDK.handleResponse
    rw [hok]
    simp [hbody]
  refine ⟨hmain, fun xs hxs => ?_⟩
  rw [hbody] at hxs
  injection hxs with hxs
  subst hxs
  unfold runGetSuggestions
  rw [hmain]
  simp [Json.jsProp, lookupLast]

/-- Witness for C5: a 200 whose body is
`\x7b"suggestions":["s1"]\x7d` makes `getSuggestions` return exactly that
list. -/
theorem c5_ok_returns_parsed_body_witness :
    runGetSuggestions
      { status := 200, statusText := "OK",
        jsonBody := some (Json.obj [("suggestions", Json.arr [Json.str "s1"])]) }
      = .ok (some (Json.arr [Json.str "s1"])) :=
  (c5_ok_returns_parsed_body
    { status := 200, statusText := "OK",
      jsonBody := some (Json.obj [("suggestions", Json.arr [Json.str "s1"])]) }
    (Json.obj [("suggestions", Json.arr [Json.str "s1"])])
    rfl rfl).2 [Json.str "s1"] rfl

/-- C3 (amended): the rendered query parameters of the listing operations
are exactly the filter fields that are present AND truthy (a present but
falsy field — the empty string, or the number 0 for `limit`/`offset` — is
skipped by the `if (filters?.field)` guard), each rendered once, in the
fixed program order of the `append` statements, identical on every call
with the same input since the rendering is a pure function; when no
parameter is rendered the query string is empty, the endpoint is the bare
resource path, and it contains a question mark only if the project id
does. -/
theorem c3_filter_query_rendering (sf : Option SuggestionFilters)
    (impf : Option ImplementationFilters) (pid : String) :
    ((suggestionParams sf).map Prod.fst
        = ["status", "limit", "offset"].filter (sugFieldTruthy sf)
      ∧ ((suggestionParams sf).map Prod.fst).Nodup)
    ∧ ((implementationParams impf).map Prod.fst
        = ["status", "platform", "limit", "offset"].filter (implFieldTruthy impf)
      ∧ ((implementationParams impf).map Prod.fst).Nodup)
    ∧ (suggestionParams sf = [] →
        getSuggestionsEndpoint pid sf = ("/api/projects/" ++ pid) ++ "/suggestions"
        ∧ (Char.ofNat 63 ∈ (getSuggestionsEndpoint pid sf).data → Char.ofNat 63 ∈ pid.data))
    ∧ (implementationParams impf = [] →
        getImplementationsEndpoint pid impf = ("/api/projects/" ++ pid) ++ "/implementations"
        ∧ (Char.ofNat 63 ∈ (getImplementationsEndpoint pid impf).data
            → Char.ofNat 63 ∈ pid.data)) := by
  have hkeys1 : (suggestionParams sf).map Prod.fst
      = ["status", "limit", "offset"].filter (sugFieldTruthy sf) := by
    simp only [suggestionParams, List.map_append, map_fst_appendIfStr, map_fst_appendIfNum,
      List.filter_cons, List.filter_nil, sugFieldTruthy]
    cases h1 : strTruthy (sf.bind SuggestionFilters.status) <;>
      cases h2 : intTruthy (sf.bind SuggestionFilters.limit) <;>
        cases h3 : intTruthy (sf.bind SuggestionFilters.offset) <;>
          simp [h1, h2, h3]
  have hkeys2 : (implementationParams impf).map Prod.fst
      = ["status", "platform", "limit", "offset"].filter (implFieldTruthy impf) := by
    simp only [implementationParams, List.map_append, map_fst_appendIfStr, map_fst_appendIfNum,
      List.filter_cons, List.filter_nil, implFieldTruthy]
    cases h1 : strTruthy (impf.bind ImplementationFilters.status) <;>
      cases h2 : strTruthy (impf.bind ImplementationFilters.platform) <;>
        cases h3 : intTruthy (impf.bind ImplementationFilters.limit) <;>
          cases h4 : intTruthy (impf.bind ImplementationFilters.offset) <;>
            simp [h1, h2, h3, h4]
  have hend1 : suggestionParams sf = [] →
      getSuggestionsEndpoint pid sf = ("/api/projects/" ++ pid) ++ "/suggestions" := by
    intro h
    unfold getSuggestionsEndpoint
    rw [h]
    show (("/api/projects/" ++ pid) ++ "/suggestions") ++ ""
        = ("/api/projects/" ++ pid) ++ "/suggestions"
    simp
  have hend2 : implementationParams impf = [] →
      getImplementationsEndpoint pid impf = ("/api/projects/" ++ pid) ++ "/implementations" := by
    intro h
    unfold getImplementationsEndpoint
    rw [h]
    show (("/api/projects/" ++ pid) ++ "/implementations") ++ ""
        = ("/api/projects/" ++ pid) ++ "/implementations"
    simp
  refine ⟨⟨hkeys1, ?_⟩, ⟨hkeys2, ?_⟩, fun h => ⟨hend1 h, ?_⟩, fun h => ⟨hend2 h, ?_⟩⟩
  · rw [hkeys1]; exact List.Nodup.filter _ (by decide)
  · rw [hkeys2]; exact List.Nodup.filter _ (by decide)
  · intro hmem
    rw [hend1 h, String.data_append, String.data_append] at hmem
    rcases List.mem_append.mp hmem with hm | hm
    · rcases List.mem_append.mp hm with hm2 | hm2
      · exact absurd hm2 (by decide)
      · exact hm2
    · exact absurd hm (by decide)
  · intro hmem
    rw [hend2 h, String.data_append, String.data_append] at hmem
    rcases List.mem_append.mp hmem with hm | hm
    · rcases List.mem_append.mp hm with hm2 | hm2
      · exact absurd hm2 (by decide)
      · exact hm2
    · exact absurd hm (by decide)

/-- Witness for C3: with truthy `status` and `limit` and no `offset`
exactly those two parameters render in order, and with no filters at all
both endpoints are the bare paths. -/
theorem c3_filter_query_rendering_witness :
    (suggestionParams
        (some { status := some "pending", limit := some 5, offset := none })).map Prod.fst
      = ["status", "limit"]
    ∧ getSuggestionsEndpoint "p1" none = ("/api/projects/" ++ "p1") ++ "/suggestions"
    ∧ getImplementationsEndpoint "p1" none = ("/api/projects/" ++ "p1") ++ "/implementations" := by
  have h := c3_filter_query_rendering
    (some { status := some "pending", limit := some 5, offset := none }) none "p1"
  have h0 := c3_filter_query_rendering none none "p1"
  exact ⟨h.1.1.trans (by decide), (h0.2.2.1 rfl).1, (h0.2.2.2 rfl).1⟩

/-- Counterexample for C3 as stated: a filter set whose only present
field is `offset` with value 0 renders no parameter at all — the present
field does not appear in the query string, because `if (filters?.offset)`
treats 0 as falsy. -/
theorem c3_counterexample :
    (some { offset := some 0 } : Option SuggestionFilters).bind SuggestionFilters.offset
      = some 0
    ∧ suggestionParams (some { offset := some 0 }) = []
    ∧ getSuggestionsEndpoint "p1" (some { offset := some 0 }) = "/api/projects/p1/suggestions" := by
  exact ⟨rfl, rfl, rfl⟩

/-- C10 (amended): a successful `getCreditUsage` call returns the empty
list when the envelope has no `usageHistory` field or the field is `null`
(and, more generally, whenever the field is falsy), and returns the field
itself whenever it is truthy — in particular for every array value, since
arrays are always truthy; its request is exactly the `getCredits` request
with `includeHistory` set to true. -/
theorem c10_credit_usage (resp : HttpResponse) (j v : Json)
    (sdk : RankVectorsSDK) (pid : String) (dr : Option DateRange)
    (hok : RankVectorsSDK.handleResponse resp = .ok j) :
    (j.jsProp "usageHistory" = .ok none → runGetCreditUsage resp = .ok (Json.arr []))
    ∧ (j.jsProp "usageHistory" = .ok (some Json.null) →
        runGetCreditUsage resp = .ok (Json.arr []))
    ∧ (j.jsProp "usageHistory" = .ok (some v) → v.truthy = true →
        runGetCreditUsage resp = .ok v)
    ∧ (sdk.applyOp (Op.getCreditUsage pid dr)).2
        = (sdk.applyOp (Op.getCredits pid true dr)).2 := by
  have hrun : runGetCreditUsage resp
      = (match j.jsProp "usageHistory" with
        | .error e => .error e
        | .ok (some v) => .ok (if v.truthy then v else Json.arr [])
        | .ok none => .ok (Json.arr [])) := by
    unfold runGetCreditUsage
    rw [hok]
  refine ⟨?_, ?_, ?_, rfl⟩
  · intro hp
    rw [hrun, hp]
  · intro hp
    rw [hrun, hp]
    rfl
  · intro hp htr
    rw [hrun, hp]
    simp [htr]

/-- Witness for C10: an envelope with `usageHistory: [1]` yields that
array, and an envelope without the field yields the empty array. -/
theorem c10_credit_usage_witness :
    runGetCreditUsage
      { status := 200, statusText := "OK",
        jsonBody := some (Json.obj
          [("balance", Json.obj []), ("usageHistory", Json.arr [Json.num 1])]) }
      = .ok (Json.arr [Json.num 1])
    ∧ runGetCreditUsage
        { status := 200, statusText := "OK",
          jsonBody := some (Json.obj [("balance", Json.obj [])]) }
      = .ok (Json.arr []) := by
  have h1 := c10_credit_usage
    { status := 200, statusText := "OK",
      jsonBody := some (Json.obj
        [("balance", Json.obj []), ("usageHistory", Json.arr [Json.num 1])]) }
    (Json.obj [("balance", Json.obj []), ("usageHistory", Json.arr [Json.num 1])])
    (Json.arr [Json.num 1])
    { apiKey := "k", baseUrl := "https://host" } "p" none rfl
  have h2 := c10_credit_usage
    { status := 200, statusText := "OK", jsonBody := some (Json.obj [("balance", Json.obj [])]) }
    (Json.obj [("balance", Json.obj [])]) Json.null
    { apiKey := "k", baseUrl := "https://host" } "p" none rfl
  exact ⟨h1.2.2.1 rfl rfl, h2.1 rfl⟩

/-- Counterexample for C10 as stated: an envelope whose `usageHistory`
field is present and is neither absent nor `null` — the value `false` —
still yields the empty list, not the field value. -/
theorem c10_counterexample :
    lookupLast [("usageHistory", Json.bool false)] "usageHistory" = some (Json.bool false)
    ∧ runGetCreditUsage
        { status := 200, statusText := "OK",
          jsonBody := some (Json.obj [("usageHistory", Json.bool false)]) }
      = .ok (Json.arr [])
    ∧ (Json.arr [] : Json) ≠ Json.bool false := by
  exact ⟨rfl, rfl, fun h => Json.noConfusion h⟩
